import Mathlib

/-!
Shallow embedding of the TaskFlow helpdesk REST backend (`src/server.js`).

The relational store is modelled as explicit lists of rows (`Db`); each HTTP
handler becomes a pure function from the request fields and the database state
to the HTTP status code together with the row it would write (or `none` when
no INSERT/UPDATE statement is issued).  JavaScript truthiness of request
fields is modelled by `falsyS`/`falsyI` (absent, empty string, and the number
zero are falsy), and `parseInt(x, 10)` by `jsParseInt` (`none` plays the role
of `NaN`).
-/

/-- JS falsiness of an optional string request field: absent or `""`. -/
def falsyS : Option String → Bool
  | none => true
  | some s => s == ""

/-- JS falsiness of an optional numeric request field: absent or `0`. -/
def falsyI : Option Int → Bool
  | none => true
  | some n => n == 0

/-- JS `a || d` for a string field: the default replaces a falsy value. -/
def jsOr : Option String → String → String
  | none, d => d
  | some s, d => if s = "" then d else s

/-- JS `n || d` for a number: `none` models `NaN`, and `0` is falsy. -/
def jsOrInt : Option Int → Int → Int
  | none, d => d
  | some n, d => if n = 0 then d else n

/-- JS `.toLowerCase()` / SQL `LOWER(...)`, character by character. -/
def lowerStr (s : String) : String := ⟨s.data.map Char.toLower⟩

/-- JS `.trim()`: strip leading and trailing whitespace. -/
def trimStr (s : String) : String :=
  ⟨((s.data.dropWhile Char.isWhitespace).reverse.dropWhile Char.isWhitespace).reverse⟩

/-- Split a character list at every occurrence of `c` (JS `.split(c)`). -/
def splitOnCharAux (c : Char) (acc : List Char) : List Char → List (List Char)
  | [] => [acc.reverse]
  | x :: xs => if x == c then acc.reverse :: splitOnCharAux c [] xs
               else splitOnCharAux c (x :: acc) xs

/-- Numeric value of a list of decimal digit characters. -/
def digitsVal (cs : List Char) : Nat :=
  cs.foldl (fun a c => 10 * a + (c.toNat - 48)) 0

/-- Leading decimal digits of a character list; `none` when there are none. -/
def digitsOf (cs : List Char) : Option Nat :=
  let ds := cs.takeWhile (fun c => c.isDigit)
  if ds.isEmpty then none else some (digitsVal ds)

/-- `parseInt(s, 10)`: skip leading whitespace, optional sign, then the
leading run of decimal digits; `none` models `NaN`. -/
def jsParseInt (s : String) : Option Int :=
  match s.toList.dropWhile (fun c => c.isWhitespace) with
  | '-' :: rest => (digitsOf rest).map (fun n => -(n : Int))
  | '+' :: rest => (digitsOf rest).map (fun n => (n : Int))
  | rest => (digitsOf rest).map (fun n => (n : Int))

/-- A row of the `CLIENTES` table. -/
structure User where
  id : Int
  nome : String
  email : String
  senhaHash : String
  perfil : String
  ativo : Bool
deriving DecidableEq

/-- A row of the `CHAMADOS` table. -/
structure Ticket where
  id : Nat
  titulo : String
  descricao : String
  status : String
  dataAbertura : Nat
  dataFechamento : Option Nat
  prioridade : String
  idCliente : Int
  nomeCliente : String
  idSetor : Option Int
  imagem : Option String
  tecnico : Option String
deriving DecidableEq

/-- The relational store: `CLIENTES` and `CHAMADOS` rows. -/
structure Db where
  users : List User
  tickets : List Ticket
deriving DecidableEq

/-- `SELECT ... FROM CHAMADOS WHERE ID_CHAMADO = ?`. -/
def findTicket (db : Db) (tid : Nat) : Option Ticket :=
  db.tickets.find? (fun t => t.id == tid)

/-- `SELECT ... FROM CLIENTES WHERE ID_CLIENTE = ?`. -/
def findUser (db : Db) (cid : Int) : Option User :=
  db.users.find? (fun u => u.id == cid)

/-! ## POST /clientes and PUT /atualizar-perfil -/

/-- Segment of the e-mail regex: `[^\s@]+` character class. -/
def segOk (cs : List Char) : Bool :=
  cs.all (fun c => !c.isWhitespace && !(c == '@'))

/-- The registration e-mail regex `/^[^\s@]+@[^\s@]+\.[^\s@]+$/`: exactly one
`@`, a non-empty local part, and a `.` in the domain that is neither its
first nor its last character. -/
def emailValid (s : String) : Bool :=
  match splitOnCharAux '@' [] s.data with
  | [l, d] =>
    !l.isEmpty && segOk l && segOk d &&
      (List.range d.length).any
        (fun i => d.getD i ' ' == '.' && decide (1 ≤ i) && decide (i + 2 ≤ d.length))
  | _ => false

/-- Registration duplicate check:
`SELECT 1 FROM CLIENTES WHERE LOWER(Email) = LOWER(?) LIMIT 1` with the
trimmed input — case-insensitive, over every row (no `Ativo` filter). -/
def registerEmailConflict (db : Db) (email : String) : Bool :=
  db.users.any (fun u => lowerStr u.email == lowerStr (trimStr email))

/-- Profile-edit duplicate check:
`SELECT ID_CLIENTE FROM CLIENTES WHERE Email = ? AND ID_CLIENTE != ?` —
an exact, case-sensitive match over every row other than the editor. -/
def profileEmailConflict (db : Db) (email : String) (editorId : Int) : Bool :=
  db.users.any (fun u => u.email == email && !(u.id == editorId))

/-- `POST /clientes`: status code and the inserted `CLIENTES` row (if any).
`hash` abstracts `bcrypt.hash`, `newId` the auto-increment id. -/
def postClientes (db : Db) (hash : String → String) (newId : Int)
    (Nome Email Senha Perfil : Option String) : Nat × Option User :=
  if falsyS Nome || falsyS Email || falsyS Senha then (400, none)
  else if !emailValid (Email.getD "") then (400, none)
  else if registerEmailConflict db (Email.getD "") then (409, none)
  else
    (201, some {
      id := newId
      nome := trimStr (Nome.getD "")
      email := lowerStr (trimStr (Email.getD ""))
      senhaHash := hash (Senha.getD "")
      perfil := jsOr Perfil "Usuario"
      ativo := true })

/-- `PUT /atualizar-perfil`: status code and the columns the UPDATE writes —
`(ID_CLIENTE, Nome, Email, optional new Senha_hash)`.  `Nome` and `Email`
are persisted verbatim. -/
def atualizarPerfil (db : Db) (hash : String → String) (idc : Option Int)
    (Nome Email Senha : Option String) : Nat × Option (Int × String × String × Option String) :=
  if falsyI idc || falsyS Nome || falsyS Email then (400, none)
  else if profileEmailConflict db (Email.getD "") (idc.getD 0) then (409, none)
  else if db.users.any (fun u => u.id == idc.getD 0) then
    (200, some (idc.getD 0, Nome.getD "", Email.getD "",
      if falsyS Senha || trimStr (Senha.getD "") == "" then none
      else some (hash (Senha.getD ""))))
  else (404, none)

/-! ## POST /recuperar-senha -/

/-- `POST /recuperar-senha`: status code and response message.  The lookup is
`SELECT ... FROM CLIENTES WHERE Email = ? LIMIT 1` (exact match, all rows). -/
def recuperarSenha (db : Db) (Email : Option String) : Nat × String :=
  if falsyS Email then (400, "Email é obrigatório")
  else if db.users.any (fun u => u.email == Email.getD "") then
    (200, "Instruções de recuperação enviadas para seu email")
  else
    (200, "Se o email existir, enviaremos instruções")

/-! ## GET /tickets -/

/-- A string filter is applied unless it is falsy, `"null"`, or its
placeholder sentinel (`"Status"` / `"Prioridade"`). -/
def applyStr (q : Option String) (sentinel : String) : Bool :=
  match q with
  | none => false
  | some s => !(s == "") && !(s == "null") && !(s == sentinel)

/-- An id filter is applied unless it is falsy, `"null"`, or `"0"`. -/
def applyId (q : Option String) : Bool :=
  match q with
  | none => false
  | some s => !(s == "") && !(s == "null") && !(s == "0")

/-- The `WHERE` clause built by `GET /tickets` for one row. -/
def ticketKeep (qs qp qu qsec : Option String) (t : Ticket) : Bool :=
  (if applyStr qs "Status" then t.status == qs.getD "" else true) &&
  (if applyStr qp "Prioridade" then t.prioridade == qp.getD "" else true) &&
  (if applyId qu then
      (match jsParseInt (qu.getD "") with
       | some n => t.idCliente == n
       | none => false)
    else true) &&
  (if applyId qsec then
      (match jsParseInt (qsec.getD "") with
       | some n => t.idSetor == some n
       | none => false)
    else true)

/-- Descending insertion by `Data_Abertura` (most recent first). -/
def insertByAbertura (t : Ticket) : List Ticket → List Ticket
  | [] => [t]
  | u :: us =>
    if t.dataAbertura ≤ u.dataAbertura then u :: insertByAbertura t us
    else t :: u :: us

/-- `ORDER BY t.Data_Abertura DESC`. -/
def sortByAberturaDesc : List Ticket → List Ticket
  | [] => []
  | t :: ts => insertByAbertura t (sortByAberturaDesc ts)

/-- `Math.min(parseInt(limit, 10) || 50, 100)`. -/
def safeLimit (limit : Option String) : Int :=
  min (jsOrInt (limit.bind jsParseInt) 50) 100

/-- `Math.max(parseInt(offset, 10) || 0, 0)`. -/
def safeOffset (offset : Option String) : Int :=
  max (jsOrInt (offset.bind jsParseInt) 0) 0

/-- `GET /tickets`: filter, sort by opening date descending, paginate. -/
def listTickets (db : Db) (qs qp qu qsec limit offset : Option String) : List Ticket :=
  (((sortByAberturaDesc (db.tickets.filter (ticketKeep qs qp qu qsec))).drop
      (safeOffset offset).toNat).take (safeLimit limit).toNat)

/-! ## POST /tickets -/

/-- Request body of `POST /tickets` (multipart fields arrive as strings). -/
structure CreateReq where
  Titulo : Option String
  Descricao : Option String
  Prioridade : Option String
  ID_Cliente : Option String
  Nome_Cliente : Option String
  ID_Setor : Option String
deriving DecidableEq

/-- Auto-increment id for a fresh `CHAMADOS` row. -/
def newTicketId (db : Db) : Nat :=
  db.tickets.foldl (fun m t => max m t.id) 0 + 1

/-- `POST /tickets`: status code and the inserted `CHAMADOS` row (if any).
`imagensPaths` are the generated filenames of the saved uploads; the handler
never looks up the supplied `ID_Cliente` in `CLIENTES`. -/
def postTicket (db : Db) (now : Nat) (imagensPaths : List String)
    (req : CreateReq) : Nat × Option Ticket :=
  if falsyS req.Titulo || falsyS req.Descricao || falsyS req.Prioridade ||
      falsyS req.ID_Cliente || falsyS req.Nome_Cliente then (400, none)
  else if ¬(req.Prioridade.getD "" = "Baixa" ∨ req.Prioridade.getD "" = "Média" ∨
      req.Prioridade.getD "" = "Alta") then (400, none)
  else
    match jsParseInt (req.ID_Cliente.getD "") with
    | none => (400, none)
    | some cid =>
      if !falsyS req.ID_Setor && (jsParseInt (req.ID_Setor.getD "")).isNone then (400, none)
      else
        (201, some {
          id := newTicketId db
          titulo := trimStr (req.Titulo.getD "")
          descricao := trimStr (req.Descricao.getD "")
          status := "Aberto"
          dataAbertura := now
          dataFechamento := none
          prioridade := req.Prioridade.getD ""
          idCliente := cid
          nomeCliente := trimStr (req.Nome_Cliente.getD "")
          idSetor := if falsyS req.ID_Setor then none else jsParseInt (req.ID_Setor.getD "")
          imagem := if imagensPaths = [] then none else some (String.intercalate "," imagensPaths)
          tecnico := none })

/-! ## PUT /tickets/:id -/

/-- Request body of `PUT /tickets/:id`. -/
structure UpdateReq where
  Titulo : Option String
  Descricao : Option String
  Prioridade : Option String
  ID_Setor : Option Int
  TicketStatus : Option String
  ID_Cliente : Option Int
  Tecnico : Option String
deriving DecidableEq

/-- Outcome of `PUT /tickets/:id`: HTTP status and the row written by the
UPDATE statement (`none` when no UPDATE is issued). -/
structure PutResult where
  status : Nat
  update : Option Ticket
deriving DecidableEq

/-- `const novoStatus = TicketStatus || ticket.ChamadoStatus`. -/
def resolveStatus (req : UpdateReq) (t : Ticket) : String :=
  jsOr req.TicketStatus t.status

/-- The automatic `Data_Fechamento` derivation of `PUT /tickets/:id`. -/
def newFechamento (now : Nat) (prev : String) (prevData : Option Nat)
    (next : String) : Option Nat :=
  if next = "Fechado" ∧ prev ≠ "Fechado" then some now
  else if next ≠ "Fechado" ∧ prev = "Fechado" then none
  else prevData

/-- The `CHAMADOS` row written by the UPDATE of `PUT /tickets/:id`. -/
def updatedRow (now : Nat) (t : Ticket) (req : UpdateReq)
    (tecnico : Option String) : Ticket :=
  { t with
    titulo := req.Titulo.getD ""
    descricao := req.Descricao.getD ""
    prioridade := req.Prioridade.getD ""
    idSetor := req.ID_Setor
    status := resolveStatus req t
    tecnico := tecnico
    dataFechamento := newFechamento now t.status t.dataFechamento (resolveStatus req t) }

/-- Role/ownership branch of `PUT /tickets/:id`, after the ticket `t` and the
acting user `u` (looked up by `cid`) have been resolved. -/
def putTicketCore (now : Nat) (t : Ticket) (u : User) (cid : Int)
    (req : UpdateReq) : PutResult :=
  if u.perfil = "Tecnico" ∨ u.perfil = "Admin" then
    ⟨200, some (updatedRow now t req
      (if falsyS req.Tecnico then some u.nome else req.Tecnico))⟩
  else if t.idCliente ≠ cid then ⟨403, none⟩
  else ⟨200, some (updatedRow now t req none)⟩

/-- `PUT /tickets/:id`: validation, ticket lookup, acting-user lookup, then
the role/ownership branch. -/
def putTicket (now : Nat) (db : Db) (tid : Nat) (req : UpdateReq) : PutResult :=
  if falsyS req.Titulo || falsyS req.Descricao || falsyS req.Prioridade ||
      falsyI req.ID_Setor then ⟨400, none⟩
  else
    match findTicket db tid with
    | none => ⟨404, none⟩
    | some t =>
      match req.ID_Cliente with
      | none => ⟨404, none⟩
      | some cid =>
        match findUser db cid with
        | none => ⟨404, none⟩
        | some u => putTicketCore now t u cid req

/-! ## PUT /tickets/:id/imagens -/

/-- How the stored comma-joined `Imagem` column is read back into a list. -/
def parseImagens : Option String → List String
  | none => []
  | some s =>
    if s = "" then []
    else if s.data.contains ',' then
      (splitOnCharAux ',' [] s.data).map (fun cs => trimStr ⟨cs⟩)
    else [trimStr s]

/-- The filenames kept by `PUT /tickets/:id/imagens`: the stored list with
the `imagens_remover` entries filtered out (`remover = none` when the field
is absent, in which case nothing is removed). -/
def keptImagens (prevImagem : Option String) (remover : Option (List String)) :
    List String :=
  match remover with
  | none => parseImagens prevImagem
  | some rm => (parseImagens prevImagem).filter (fun img => !(rm.contains img))

/-- `PUT /tickets/:id/imagens`: status code and the value written to the
`Imagem` column (`some (some col)`, `some none` for SQL NULL; outer `none`
when no UPDATE is issued).  `remover` is the parsed `imagens_remover` list
(`none` when the field is absent), `novas` the generated filenames of the
newly saved uploads. -/
def putTicketImagens (db : Db) (tid : Nat) (remover : Option (List String))
    (novas : List String) : Nat × Option (Option String) :=
  match findTicket db tid with
  | none => (404, none)
  | some t =>
    (200, some
      (if (keptImagens t.imagem remover ++ novas).isEmpty then none
       else some (String.intercalate "," (keptImagens t.imagem remover ++ novas))))

/-! ## Fixtures used by the witness theorems -/

/-- Abstract password hash used by the witnesses. -/
def hashId : String → String := fun s => s

/-- A technician row. -/
def userTec : User := ⟨10, "Tecla", "tec@x.co", "h", "Tecnico", true⟩

/-- An ordinary user who owns `tOpen`. -/
def userUla : User := ⟨11, "Ula", "ula@x.co", "h", "Usuario", true⟩

/-- An ordinary user who does not own `tOpen`. -/
def userEve : User := ⟨12, "Eve", "eve@x.co", "h", "Usuario", true⟩

/-- An open ticket owned by user 11 with two stored images. -/
def tOpen : Ticket :=
  ⟨1, "T", "D", "Aberto", 100, none, "Alta", 11, "Ula", some 2, some "a.png,b.png", none⟩

/-- The main witness database. -/
def dbMain : Db := ⟨[userTec, userUla, userEve], [tOpen]⟩

/-- A technician update that closes `tOpen` without supplying `Tecnico`. -/
def reqClose : UpdateReq := ⟨some "T2", some "D2", some "Alta", some 2, some "Fechado", some 10, none⟩

/-- A non-owner ordinary-user update attempt. -/
def reqEve : UpdateReq := ⟨some "T2", some "D2", some "Alta", some 2, none, some 12, some "Hacker"⟩

/-- An update whose acting user id matches no `CLIENTES` row. -/
def reqNoUser : UpdateReq := ⟨some "T2", some "D2", some "Alta", some 2, none, some 99, none⟩

/-- The row `putTicket 5 dbMain 1 reqClose` writes. -/
def rowClosed : Ticket :=
  ⟨1, "T2", "D2", "Fechado", 100, some 5, "Alta", 11, "Ula", some 2, some "a.png,b.png", some "Tecla"⟩

/-! ## PUT /tickets/:id: inversion of the success path -/

/-- Any row written by `PUT /tickets/:id` arises from `updatedRow` after the
validation and the two lookups succeed, in one of the two authorization
branches. -/
theorem putTicket_update_inv (now : Nat) (db : Db) (tid : Nat) (req : UpdateReq)
    (t' : Ticket) (hs : (putTicket now db tid req).update = some t') :
    ∃ t cid u, findTicket db tid = some t ∧ req.ID_Cliente = some cid ∧
      findUser db cid = some u ∧
      (((u.perfil = "Tecnico" ∨ u.perfil = "Admin") ∧
          t' = updatedRow now t req
            (if falsyS req.Tecnico then some u.nome else req.Tecnico)) ∨
        (¬(u.perfil = "Tecnico" ∨ u.perfil = "Admin") ∧ t.idCliente = cid ∧
          t' = updatedRow now t req none)) := by
  unfold putTicket at hs
  split at hs
  · simp at hs
  · split at hs
    · simp at hs
    · rename_i t hft
      split at hs
      · simp at hs
      · rename_i cid hcid
        split at hs
        · simp at hs
        · rename_i u hfu
          unfold putTicketCore at hs
          by_cases hr : u.perfil = "Tecnico" ∨ u.perfil = "Admin"
          · rw [if_pos hr] at hs
            simp only [Option.some.injEq] at hs
            exact ⟨t, cid, u, hft, hcid, hfu, Or.inl ⟨hr, hs.symm⟩⟩
          · rw [if_neg hr] at hs
            by_cases ho : t.idCliente ≠ cid
            · rw [if_pos ho] at hs; simp at hs
            · rw [if_neg ho] at hs
              simp only [Option.some.injEq] at hs
              exact ⟨t, cid, u, hft, hcid, hfu,
                Or.inr ⟨hr, not_ne_iff.mp ho, hs.symm⟩⟩

/-- The `Data_Fechamento` column written by a successful update. -/
theorem putTicket_update_dataFechamento (now : Nat) (db : Db) (tid : Nat)
    (req : UpdateReq) (t t' : Ticket) (ht : findTicket db tid = some t)
    (hs : (putTicket now db tid req).update = some t') :
    t'.dataFechamento =
      newFechamento now t.status t.dataFechamento (resolveStatus req t) := by
  obtain ⟨t₀, cid, u, ht₀, _, _, hbr⟩ := putTicket_update_inv now db tid req t' hs
  have htt : t₀ = t := by rw [ht₀] at ht; exact Option.some.inj ht
  subst htt
  rcases hbr with ⟨_, h⟩ | ⟨_, _, h⟩ <;> subst h <;> rfl

/-- C1: for every successful `PUT /tickets/:id`, the stored `Data_Fechamento`
is derived from the status transition alone: it becomes the current time when
the resolved target status is `Fechado` and the previous status was not,
becomes null when the target is not `Fechado` and the previous status was
`Fechado`, and otherwise keeps its previous stored value; a request without a
`TicketStatus` field resolves to the current status. -/
theorem C1_closedAt (now : Nat) (db : Db) (tid : Nat) (req : UpdateReq)
    (t t' : Ticket) (ht : findTicket db tid = some t)
    (hs : (putTicket now db tid req).update = some t') :
    (resolveStatus req t = "Fechado" → t.status ≠ "Fechado" →
      t'.dataFechamento = some now) ∧
    (resolveStatus req t ≠ "Fechado" → t.status = "Fechado" →
      t'.dataFechamento = none) ∧
    ((resolveStatus req t = "Fechado" ↔ t.status = "Fechado") →
      t'.dataFechamento = t.dataFechamento) ∧
    (req.TicketStatus = none → resolveStatus req t = t.status) := by
  have hd := putTicket_update_dataFechamento now db tid req t t' ht hs
  refine ⟨?_, ?_, ?_, ?_⟩
  · intro h1 h2
    rw [hd]; unfold newFechamento; rw [if_pos ⟨h1, h2⟩]
  · intro h1 h2
    rw [hd]; unfold newFechamento
    rw [if_neg (fun hc => h1 hc.1), if_pos ⟨h1, h2⟩]
  · intro hiff
    rw [hd]; unfold newFechamento
    by_cases hp : t.status = "Fechado"
    · rw [if_neg (fun hc => hc.2 hp), if_neg (fun hc => hc.1 (hiff.mpr hp))]
    · rw [if_neg (fun hc => hp (hiff.mp hc.1)), if_neg (fun hc => hp hc.2)]
  · intro h
    unfold resolveStatus; rw [h]; rfl

/-- C1 witness: closing the open ticket `tOpen` at time 5 stamps
`Data_Fechamento = 5` on the written row. -/
theorem C1_closedAt_witness :
    putTicket 5 dbMain 1 reqClose = ⟨200, some rowClosed⟩ ∧
      rowClosed.dataFechamento = some 5 :=
  ⟨by decide,
    (C1_closedAt 5 dbMain 1 reqClose tOpen rowClosed (by decide) (by decide)).1
      (by decide) (by decide)⟩

/-- C2: a `PUT /tickets/:id` request (with the required fields present) whose
acting user exists with role `Usuario` and does not own the ticket fails with
HTTP 403 and issues no UPDATE statement. -/
theorem C2_permission (now : Nat) (db : Db) (tid : Nat) (req : UpdateReq)
    (t : Ticket) (cid : Int) (u : User)
    (hT : falsyS req.Titulo = false) (hD : falsyS req.Descricao = false)
    (hP : falsyS req.Prioridade = false) (hS : falsyI req.ID_Setor = false)
    (ht : findTicket db tid = some t) (hcid : req.ID_Cliente = some cid)
    (hu : findUser db cid = some u) (hrole : u.perfil = "Usuario")
    (hown : t.idCliente ≠ cid) :
    putTicket now db tid req = ⟨403, none⟩ := by
  have hnr : ¬(u.perfil = "Tecnico" ∨ u.perfil = "Admin") := by
    rw [hrole]; decide
  unfold putTicket
  rw [hT, hD, hP, hS]
  simp only [Bool.or_self, Bool.false_eq_true, if_false, ht, hcid, hu]
  unfold putTicketCore
  rw [if_neg hnr, if_pos hown]

/-- C2 witness: the non-owner ordinary user Eve gets 403 and no UPDATE. -/
theorem C2_permission_witness : putTicket 5 dbMain 1 reqEve = ⟨403, none⟩ :=
  C2_permission 5 dbMain 1 reqEve tOpen 12 userEve rfl rfl rfl rfl
    (by decide) rfl (by decide) rfl (by decide)

/-- C3: on a successful `PUT /tickets/:id`, a `Tecnico`/`Admin` acting user
who supplied no `Tecnico` field gets their own display name stored as the
technician, and a `Usuario` acting user always gets null stored, whatever
`Tecnico` value the request carried. -/
theorem C3_technician (now : Nat) (db : Db) (tid : Nat) (req : UpdateReq)
    (t' : Ticket) (cid : Int) (u : User)
    (hcid : req.ID_Cliente = some cid) (hu : findUser db cid = some u)
    (hs : (putTicket now db tid req).update = some t') :
    ((u.perfil = "Tecnico" ∨ u.perfil = "Admin") → req.Tecnico = none →
      t'.tecnico = some u.nome) ∧
    (u.perfil = "Usuario" → t'.tecnico = none) := by
  obtain ⟨t₀, cid₀, u₀, ht₀, hcid₀, hu₀, hbr⟩ := putTicket_update_inv now db tid req t' hs
  rw [hcid₀] at hcid
  injection hcid with hc
  subst hc
  rw [hu₀] at hu
  injection hu with hUq
  subst hUq
  refine ⟨fun hr htec => ?_, fun hrole => ?_⟩
  · rcases hbr with ⟨_, rfl⟩ | ⟨hnr, _, _⟩
    · simp [updatedRow, htec, falsyS]
    · exact absurd hr hnr
  · have hnr : ¬(u₀.perfil = "Tecnico" ∨ u₀.perfil = "Admin") := by
      rw [hrole]; decide
    rcases hbr with ⟨hr, _⟩ | ⟨_, _, rfl⟩
    · exact absurd hr hnr
    · simp [updatedRow]

/-- C3 witness: the technician request `reqClose`, which carries no `Tecnico`
field, stores the acting technician's display name on the written row. -/
theorem C3_technician_witness : rowClosed.tecnico = some "Tecla" :=
  (C3_technician 5 dbMain 1 reqClose rowClosed 10 userTec rfl (by decide)
    (by decide)).1 (Or.inl rfl) rfl

/-! ## C4, C7, C9: user-table claims -/

/-- A database whose only user is inactive. -/
def dbInact : Db := ⟨[⟨1, "Bob", "a@b.c", "h", "Usuario", false⟩], []⟩

/-- Two active users with distinct lowercase emails. -/
def dbTwo : Db :=
  ⟨[⟨1, "Ed", "ed@x.co", "h", "Usuario", true⟩,
    ⟨2, "Al", "al@x.co", "h", "Usuario", true⟩], []⟩

/-- An empty database. -/
def dbNoUsers : Db := ⟨[], []⟩

/-- The row inserted when registering `"Ann"` with e-mail `"A@B.CD"`. -/
def uAnn : User := ⟨1, "Ann", "a@b.cd", "pw", "Usuario", true⟩

/-- C4 counterexample: registering `a@b.c` conflicts even though the only
user with that e-mail is inactive, and a profile edit to `AL@X.CO` succeeds
even though an active other user holds `al@x.co` (same e-mail up to case). -/
theorem C4_counterexample :
    (postClientes dbInact hashId 2 (some "Ann") (some "a@b.c") (some "pw") none).1 = 409 ∧
    dbInact.users.all (fun u => !(u.ativo && lowerStr u.email == lowerStr "a@b.c")) = true ∧
    (atualizarPerfil dbTwo hashId (some 1) (some "Ed") (some "AL@X.CO") none).1 = 200 ∧
    dbTwo.users.any (fun u => u.ativo && !(u.id == 1) &&
      lowerStr u.email == lowerStr "AL@X.CO") = true := by
  decide

/-- C4 amended: the registration conflict check is case-insensitive but runs
over every user row, active or not (against the trimmed input); the
profile-edit conflict check is an exact case-sensitive match over every row
other than the editor, active or not.  The handlers return 409 exactly when
the respective check fires. -/
theorem C4_amended :
    (∀ db e, registerEmailConflict db e = true ↔
      ∃ u ∈ db.users, lowerStr u.email = lowerStr (trimStr e)) ∧
    (∀ db e i, profileEmailConflict db e i = true ↔
      ∃ u ∈ db.users, u.email = e ∧ u.id ≠ i) ∧
    (∀ db h nid N E S P, falsyS N = false → falsyS E = false → falsyS S = false →
      emailValid (E.getD "") = true →
      ((postClientes db h nid N E S P).1 = 409 ↔
        registerEmailConflict db (E.getD "") = true)) ∧
    (∀ db h i N E S, falsyI (some i) = false → falsyS N = false → falsyS E = false →
      ((atualizarPerfil db h (some i) N E S).1 = 409 ↔
        profileEmailConflict db (E.getD "") i = true)) := by
  refine ⟨?_, ?_, ?_, ?_⟩
  · intro db e
    simp [registerEmailConflict, List.any_eq_true]
  · intro db e i
    simp [profileEmailConflict, List.any_eq_true]
  · intro db h nid N E S P hN hE hS hv
    unfold postClientes
    rw [hN, hE, hS, hv]
    simp only [Bool.or_self, Bool.false_eq_true, if_false, Bool.not_true]
    by_cases hc : registerEmailConflict db (E.getD "") = true
    · rw [if_pos hc]; simp [hc]
    · rw [if_neg hc]
      constructor
      · intro hx; simp at hx
      · intro hx; exact absurd hx hc
  · intro db h i N E S hI hN hE
    unfold atualizarPerfil
    rw [hI, hN, hE]
    simp only [Bool.or_self, Bool.false_eq_true, if_false, Option.getD_some]
    by_cases hc : profileEmailConflict db (E.getD "") i = true
    · rw [if_pos hc]; simp [hc]
    · rw [if_neg hc]
      constructor
      · intro hx
        by_cases ha : db.users.any (fun u => u.id == i) = true
        · rw [if_pos ha] at hx; simp at hx
        · rw [if_neg ha] at hx; simp at hx
      · intro hx; exact absurd hx hc

/-- C4 amended witness: the registration of `a@b.c` into `dbInact` returns
409 because the (all-rows, case-insensitive) check fires there. -/
theorem C4_amended_witness :
    (postClientes dbInact hashId 2 (some "Ann") (some "a@b.c") (some "pw") none).1 = 409 :=
  (C4_amended.2.2.1 dbInact hashId 2 (some "Ann") (some "a@b.c") (some "pw") none
    rfl rfl rfl (by decide)).mpr (by decide)

/-- C7 counterexample: both runs answer 200, but the response body differs
between an e-mail that matches a stored user and one that does not, so the
observable response distinguishes the two cases. -/
theorem C7_counterexample :
    (recuperarSenha dbMain (some "tec@x.co")).1 = 200 ∧
    (recuperarSenha dbNoUsers (some "tec@x.co")).1 = 200 ∧
    (recuperarSenha dbMain (some "tec@x.co")).2 ≠
      (recuperarSenha dbNoUsers (some "tec@x.co")).2 := by
  decide

/-- C7 amended: every request with a non-empty `Email` gets HTTP 200 whether
or not the e-mail matches a stored user, but the success message is returned
exactly when a user row carries that exact e-mail, so the body reveals
existence. -/
theorem C7_amended (db : Db) (e : String) (he : e ≠ "") :
    (recuperarSenha db (some e)).1 = 200 ∧
    ((recuperarSenha db (some e)).2 =
        "Instruções de recuperação enviadas para seu email" ↔
      db.users.any (fun u => u.email == e) = true) := by
  have hf : falsyS (some e) = false := by simp [falsyS, he]
  unfold recuperarSenha
  rw [hf]
  simp only [Bool.false_eq_true, if_false, Option.getD_some]
  by_cases ha : db.users.any (fun u => u.email == e) = true
  · rw [if_pos ha]; simp [ha]
  · rw [if_neg ha]
    refine ⟨rfl, ?_, ?_⟩
    · intro hx; exact absurd hx (by decide)
    · intro hx; exact absurd hx ha

/-- C7 amended witness: concrete 200 status and message characterization for
an e-mail present in `dbMain`. -/
theorem C7_amended_witness :
    (recuperarSenha dbMain (some "tec@x.co")).1 = 200 ∧
    ((recuperarSenha dbMain (some "tec@x.co")).2 =
        "Instruções de recuperação enviadas para seu email" ↔
      dbMain.users.any (fun u => u.email == "tec@x.co") = true) :=
  C7_amended dbMain "tec@x.co" (by decide)

/-- C9: registration persists the e-mail trimmed and lowercased, while a
profile edit persists the supplied e-mail verbatim; concretely, editing a
profile to `ED@X.CO` stores a non-lowercase e-mail, so the lowercase-storage
property from registration is not preserved by profile edits. -/
theorem C9_emailStorage :
    (∀ db h nid N E S P u, (postClientes db h nid N E S P).2 = some u →
      u.email = lowerStr (trimStr (E.getD ""))) ∧
    (∀ db h idc N E S r, (atualizarPerfil db h idc N E S).2 = some r →
      r.2.2.1 = E.getD "") ∧
    ((atualizarPerfil dbTwo hashId (some 1) (some "Ed") (some "ED@X.CO") none).2 =
        some (1, "Ed", "ED@X.CO", none) ∧
      ("ED@X.CO" : String) ≠ lowerStr (trimStr "ED@X.CO")) := by
  refine ⟨?_, ?_, by decide⟩
  · intro db h nid N E S P u hres
    unfold postClientes at hres
    split at hres
    · simp at hres
    · split at hres
      · simp at hres
      · split at hres
        · simp at hres
        · simp only [Option.some.injEq] at hres
          subst hres
          rfl
  · intro db h idc N E S r hres
    unfold atualizarPerfil at hres
    split at hres
    · simp at hres
    · split at hres
      · simp at hres
      · split at hres
        · simp only [Option.some.injEq] at hres
          subst hres
          rfl
        · simp at hres

/-- C9 witness: registering with `A@B.CD` stores `a@b.cd`. -/
theorem C9_emailStorage_witness :
    (postClientes dbNoUsers hashId 1 (some "Ann") (some "A@B.CD") (some "pw") none).2 =
        some uAnn ∧ uAnn.email = lowerStr (trimStr "A@B.CD") :=
  ⟨by decide,
    C9_emailStorage.1 dbNoUsers hashId 1 (some "Ann") (some "A@B.CD") (some "pw") none
      uAnn (by decide)⟩

/-! ## C5, C6: GET /tickets filtering and pagination -/

/-- Membership in a descending insertion comes from the inserted element or
the original list. -/
theorem mem_insertByAbertura {a t : Ticket} {l : List Ticket}
    (h : a ∈ insertByAbertura t l) : a = t ∨ a ∈ l := by
  induction l with
  | nil =>
    simp only [insertByAbertura, List.mem_singleton] at h
    exact Or.inl h
  | cons u us ih =>
    simp only [insertByAbertura] at h
    split at h
    · rcases List.mem_cons.mp h with h | h
      · exact Or.inr (List.mem_cons.mpr (Or.inl h))
      · rcases ih h with h | h
        · exact Or.inl h
        · exact Or.inr (List.mem_cons.mpr (Or.inr h))
    · rcases List.mem_cons.mp h with h | h
      · exact Or.inl h
      · exact Or.inr h

/-- The sort by opening date preserves membership (one direction). -/
theorem mem_sortByAbertura {a : Ticket} {l : List Ticket}
    (h : a ∈ sortByAberturaDesc l) : a ∈ l := by
  induction l with
  | nil => simp [sortByAberturaDesc] at h
  | cons t ts ih =>
    rcases mem_insertByAbertura h with h | h
    · simp [h]
    · exact List.mem_cons.mpr (Or.inr (ih h))

/-- C5 counterexample: in a database whose only ticket has status `Aberto`,
the invalid filter value `Bogus` is not ignored — it is applied as an
equality filter and returns no rows, unlike the unfiltered listing. -/
theorem C5_counterexample :
    listTickets dbMain (some "Bogus") none none none none none = [] ∧
    listTickets dbMain none none none none none none = [tOpen] := by
  decide

/-- C5 amended: only the sentinel values (absent, `""`, `"null"`, or the
placeholder `"Status"` / `"Prioridade"`) are treated as no filter; any other
status or priority value — valid enum member or not — is applied as an
equality filter, so every returned row matches it (and an invalid value
matches no row). -/
theorem C5_amended :
    (∀ db qp qu qsec l o s,
      (s = none ∨ s = some "" ∨ s = some "null" ∨ s = some "Status") →
      listTickets db s qp qu qsec l o = listTickets db none qp qu qsec l o) ∧
    (∀ db qs qu qsec l o p,
      (p = none ∨ p = some "" ∨ p = some "null" ∨ p = some "Prioridade") →
      listTickets db qs p qu qsec l o = listTickets db qs none qu qsec l o) ∧
    (∀ db qp qu qsec l o s, s ≠ "" → s ≠ "null" → s ≠ "Status" →
      ∀ t ∈ listTickets db (some s) qp qu qsec l o, t.status = s) ∧
    (∀ db qs qu qsec l o p, p ≠ "" → p ≠ "null" → p ≠ "Prioridade" →
      ∀ t ∈ listTickets db qs (some p) qu qsec l o, t.prioridade = p) := by
  refine ⟨?_, ?_, ?_, ?_⟩
  · rintro db qp qu qsec l o s (rfl | rfl | rfl | rfl) <;> rfl
  · rintro db qs qu qsec l o p (rfl | rfl | rfl | rfl) <;> rfl
  · intro db qp qu qsec l o s h1 h2 h3 t htl
    have happ : applyStr (some s) "Status" = true := by
      simp [applyStr, h1, h2, h3]
    have hmem : t ∈ db.tickets.filter (ticketKeep (some s) qp qu qsec) :=
      mem_sortByAbertura (List.mem_of_mem_drop (List.mem_of_mem_take htl))
    have hkeep := (List.mem_filter.mp hmem).2
    unfold ticketKeep at hkeep
    rw [happ] at hkeep
    simp only [if_true, Bool.and_eq_true, beq_iff_eq] at hkeep
    exact hkeep.1.1.1
  · intro db qs qu qsec l o p h1 h2 h3 t htl
    have happ : applyStr (some p) "Prioridade" = true := by
      simp [applyStr, h1, h2, h3]
    have hmem : t ∈ db.tickets.filter (ticketKeep qs (some p) qu qsec) :=
      mem_sortByAbertura (List.mem_of_mem_drop (List.mem_of_mem_take htl))
    have hkeep := (List.mem_filter.mp hmem).2
    unfold ticketKeep at hkeep
    rw [happ] at hkeep
    simp only [if_true, Bool.and_eq_true, beq_iff_eq] at hkeep
    exact hkeep.1.1.2

/-- C5 amended witness: the sentinel `"null"` status filter returns the same
rows as no status filter on the concrete database. -/
theorem C5_amended_witness :
    listTickets dbMain (some "null") none none none none none =
      listTickets dbMain none none none none none none :=
  C5_amended.1 dbMain none none none none none (some "null")
    (Or.inr (Or.inr (Or.inl rfl)))

/-- C6 counterexample: the effective limit for `limit=-5` is `-5`, which is
not clamped into the interval `[1, 100]`. -/
theorem C6_counterexample :
    safeLimit (some "-5") = -5 ∧
    ¬(1 ≤ safeLimit (some "-5") ∧ safeLimit (some "-5") ≤ 100) := by
  decide

/-- C6 amended: the effective limit is `min (parsed-or-50) 100` — clamped
above at 100, defaulting to 50 when the parameter is absent, unparseable, or
zero, but with no lower clamp, so negative limits pass through; the effective
offset is clamped to be at least 0 (default 0).  `limit=500` yields at most
100 rows and `offset=-5` starts at row 0. -/
theorem C6_amended :
    (∀ l, safeLimit l ≤ 100) ∧
    safeLimit none = 50 ∧
    safeLimit (some "500") = 100 ∧
    (∀ o, 0 ≤ safeOffset o) ∧
    safeOffset (some "-5") = 0 ∧
    safeOffset none = 0 ∧
    (∀ db qs qp qu qsec o,
      (listTickets db qs qp qu qsec (some "500") o).length ≤ 100) := by
  refine ⟨fun l => min_le_right _ _, by decide, by decide,
    fun o => le_max_right _ _, by decide, by decide, ?_⟩
  intro db qs qp qu qsec o
  unfold listTickets
  calc (((sortByAberturaDesc (db.tickets.filter (ticketKeep qs qp qu qsec))).drop
        (safeOffset o).toNat).take (safeLimit (some "500")).toNat).length
      ≤ (safeLimit (some "500")).toNat := List.length_take_le _ _
    _ = 100 := by decide

/-! ## C8, C10: image persistence and client-existence checks -/

/-- The spec's "kept list": the previous filename list with every filename in
the removal list removed, keeping the original order. -/
def keptSpec (prev rm : List String) : List String :=
  prev.filter (fun i => decide (i ∉ rm))

/-- The code's kept list coincides with the spec's kept list. -/
theorem keptImagens_eq_spec (prev : Option String) (remover : Option (List String)) :
    keptImagens prev remover = keptSpec (parseImagens prev) (remover.getD []) := by
  cases remover with
  | none => simp [keptImagens, keptSpec]
  | some rm =>
    unfold keptImagens keptSpec
    apply List.filter_congr
    intro x _
    by_cases hx : x ∈ rm
    · simp [hx]
    · simp [hx]

/-- C8: on a successful `PUT /tickets/:id/imagens`, the persisted `Imagem`
column is the comma-join of the kept list (previous list minus the removal
list, in original order) followed by the newly added generated filenames, and
null when that resulting list is empty. -/
theorem C8_images (db : Db) (tid : Nat) (remover : Option (List String))
    (novas : List String) (t : Ticket) (final : Option String)
    (ht : findTicket db tid = some t)
    (hres : putTicketImagens db tid remover novas = (200, some final)) :
    final =
      (if keptSpec (parseImagens t.imagem) (remover.getD []) ++ novas = [] then none
       else some (String.intercalate ","
         (keptSpec (parseImagens t.imagem) (remover.getD []) ++ novas))) := by
  unfold putTicketImagens at hres
  split at hres
  · simp at hres
  · rename_i t₀ heq
    rw [ht] at heq
    injection heq with h
    subst h
    simp only [Prod.mk.injEq, Option.some.injEq] at hres
    rw [← hres.2, keptImagens_eq_spec]
    simp only [List.isEmpty_iff]

/-- C8 witness: removing `a.png` and adding `c.png` on the ticket whose
stored column is `a.png,b.png` persists `b.png,c.png`. -/
theorem C8_images_witness :
    putTicketImagens dbMain 1 (some ["a.png"]) ["c.png"] =
        (200, some (some "b.png,c.png")) ∧
    (some "b.png,c.png" : Option String) =
      (if keptSpec (parseImagens tOpen.imagem) ["a.png"] ++ ["c.png"] = [] then none
       else some (String.intercalate ","
         (keptSpec (parseImagens tOpen.imagem) ["a.png"] ++ ["c.png"]))) :=
  ⟨by decide,
    C8_images dbMain 1 (some ["a.png"]) ["c.png"] tOpen (some "b.png,c.png")
      (by decide) (by decide)⟩

/-- C10: `POST /tickets` never looks up the supplied client — its outcome is
independent of the `CLIENTES` table and its status is never 404 — whereas
`PUT /tickets/:id` (with the required fields present and the ticket found)
answers 404 when the acting user id matches no `CLIENTES` row. -/
theorem C10_noClientCheck :
    (∀ us₁ us₂ ts now imgs req,
      postTicket ⟨us₁, ts⟩ now imgs req = postTicket ⟨us₂, ts⟩ now imgs req) ∧
    (∀ db now imgs req, (postTicket db now imgs req).1 ≠ 404) ∧
    (∀ now db tid req t cid,
      falsyS req.Titulo = false → falsyS req.Descricao = false →
      falsyS req.Prioridade = false → falsyI req.ID_Setor = false →
      findTicket db tid = some t → req.ID_Cliente = some cid →
      findUser db cid = none →
      putTicket now db tid req = ⟨404, none⟩) := by
  refine ⟨fun us₁ us₂ ts now imgs req => rfl, ?_, ?_⟩
  · intro db now imgs req h
    unfold postTicket at h
    split at h
    · simp at h
    · split at h
      · simp at h
      · split at h
        · simp at h
        · split at h
          · simp at h
          · simp at h
  · intro now db tid req t cid hT hD hP hS ht hcid hnu
    unfold putTicket
    rw [hT, hD, hP, hS]
    simp only [Bool.or_self, Bool.false_eq_true, if_false, ht, hcid, hnu]

/-- C10 witness: `PUT /tickets/:id` with acting user id 99 (no such row)
answers 404 with no UPDATE on the concrete database. -/
theorem C10_noClientCheck_witness :
    putTicket 0 dbMain 1 reqNoUser = ⟨404, none⟩ :=
  C10_noClientCheck.2.2 0 dbMain 1 reqNoUser tOpen 99 rfl rfl rfl rfl
    (by decide) rfl (by decide)
